import Mathlib

set_option maxRecDepth 4000

/-!
Verification of the Solace frontend clients and of the retrieval pipeline
contracts they depend on.

Embedded code:
* the streaming client `handleSubmit` / `handleReset` of the main page
  (the page using `POST /recommend/stream`);
* the non-streaming client `handleSubmit` of the older page
  (`frontend/app/page.js`, using `POST /recommend`);
* backend pipeline stages (query validation, crisis gate, diversity
  selection, event emission) modelled from the design document, since the
  backend source (`backend/main.py`) is not part of this tree.

Machine strings are Lean `String`s; the JavaScript `trim()` is embedded as
an explicit character-level trim (`jsTrim`).  Server-sent frames are
embedded post-parse: a frame is either one of the typed events the client
dispatches on, an error object, or a malformed line (a line that is not a
`data: ` line or whose JSON does not parse).
-/

/-- A verse object as carried by a `verses` event / `/recommend` body:
`{ref, text, translation, score, url}`.  The clients never compute with
`score`, so its numeric type is embedded as `Int`. -/
structure Verse where
  ref : String
  text : String
  translation : String
  score : Int
  url : Option String
deriving DecidableEq, Repr

/-- The result object the streaming client stores with `setResult`:
`{verses, explanation}`.  In the streaming client `verses` can be the
JavaScript `null` (a `done` event with no preceding `verses` event), hence
the `Option`. -/
structure StreamResult where
  verses : Option (List Verse)
  explanation : String
deriving DecidableEq, Repr

/-- The copy-feedback toast state `{show, message}`; the JavaScript field
`show` is a Lean keyword and is embedded as `shown`. -/
structure CopyFeedback where
  shown : Bool
  message : String
deriving DecidableEq, Repr

/-- React state of the streaming page: the eight `useState` hooks. -/
structure ClientState where
  concern : String
  tradition : String
  loading : Bool
  result : Option StreamResult
  error : Option String
  streamingExplanation : String
  isStreaming : Bool
  copyFeedback : CopyFeedback
deriving DecidableEq, Repr

/-- Character-level whitespace test matching the characters JavaScript
`trim()` strips in the inputs of interest. -/
def isWsChar (c : Char) : Bool :=
  c == ' ' || c == '\t' || c == '\n' || c == '\r'

/-- Embedding of JavaScript `String.prototype.trim`. -/
def jsTrim (s : String) : String :=
  String.mk (((s.toList.dropWhile isWsChar).reverse.dropWhile isWsChar).reverse)

/-- One parsed server-sent frame, as seen by the dispatch in the streaming
client loop.  `errObj` is a `{"error": msg}` object; `malformed` stands for
a line that is not a `data: ` line or fails `JSON.parse`. -/
inductive Frame where
  | crisis (content : String)
  | verses (vs : List Verse)
  | chunk (content : String)
  | done
  | errObj (msg : String)
  | malformed
deriving DecidableEq, Repr

/-- The per-run processing state of the streaming loop: the React state
plus the two loop-local variables `tempVerses` and `tempExplanation`. -/
structure RunState where
  client : ClientState
  tempVerses : Option (List Verse)
  tempExplanation : String
deriving DecidableEq, Repr

/-- One iteration of the frame dispatch in the streaming client's read
loop.  The `errObj` case is the `else if (data.error) throw new Error(...)`
branch: the throw is caught by the surrounding `catch (parseError)` which
only logs, so, like `malformed`, it leaves the state unchanged. -/
def processFrame (s : RunState) : Frame → RunState
  | .crisis content =>
      { s with client :=
          { s.client with
              result := some { verses := some [], explanation := content },
              loading := false } }
  | .verses vs =>
      { s with
          tempVerses := some vs,
          client :=
            { s.client with
                result := some { verses := some vs, explanation := "" },
                loading := false } }
  | .chunk content =>
      let te := s.tempExplanation ++ content
      { s with
          tempExplanation := te,
          client :=
            { s.client with
                isStreaming := true,
                streamingExplanation := te } }
  | .done =>
      { s with client :=
          { s.client with
              isStreaming := false,
              result := some { verses := s.tempVerses,
                               explanation := s.tempExplanation },
              streamingExplanation := "" } }
  | .errObj _ => s
  | .malformed => s

/-- The outcome of the `fetch` to `/recommend/stream`, as the client can
observe it: a connection-level failure (`!response.ok` or a rejected
`fetch`), a stream of frames that ends normally, or a stream of frames
after which the reader fails with a message (`err.message`, possibly
empty). -/
inductive FetchOutcome where
  | connectFailure
  | stream (frames : List Frame)
  | streamFail (frames : List Frame) (msg : String)
deriving DecidableEq, Repr

/-- The `catch (err)` block of the streaming `handleSubmit`:
`setError(err.message || fallback)`, `setLoading(false)`,
`setIsStreaming(false)`. -/
def applyCatch (c : ClientState) (msg : String) : ClientState :=
  { c with
      error := some (if msg = "" then "Something went wrong. Please try again." else msg),
      loading := false,
      isStreaming := false }

/-- The state resets the streaming `handleSubmit` performs before the
`fetch`: `setLoading(true)`, `setError(null)`, `setResult(null)`,
`setStreamingExplanation('')`, `setIsStreaming(false)`. -/
def resetForRun (s : ClientState) : ClientState :=
  { s with loading := true, error := none, result := none,
           streamingExplanation := "", isStreaming := false }

/-- The run state at the top of the read loop: the reset React state and
the fresh loop locals `tempVerses = null`, `tempExplanation = ''`. -/
def initRun (s : ClientState) : RunState :=
  { client := resetForRun s, tempVerses := none, tempExplanation := "" }

/-- Embedding of the streaming `handleSubmit`: validation guard, the
pre-run state resets, then the read loop folded over the parsed frames,
with the catch block applied on failure outcomes. -/
def handleSubmit (s : ClientState) (resp : FetchOutcome) : ClientState :=
  if jsTrim s.concern = "" then
    { s with error := some "Please share what you\x27re going through" }
  else
    match resp with
    | .connectFailure => applyCatch (resetForRun s) "Unable to connect. Please try again."
    | .stream frames => (frames.foldl processFrame (initRun s)).client
    | .streamFail frames msg =>
        applyCatch (frames.foldl processFrame (initRun s)).client msg

/-- Embedding of `handleReset` on the streaming page. -/
def handleReset (s : ClientState) : ClientState :=
  { s with concern := "", result := none, error := none,
           streamingExplanation := "", isStreaming := false }

/-- The render guard of the verse list on the streaming page:
`result?.verses && result.verses.length > 0`. -/
def rendersPassages (c : ClientState) : Bool :=
  match c.result with
  | some r =>
      match r.verses with
      | some vs => decide (0 < vs.length)
      | none => false
  | none => false

/-! ## The non-streaming client (`frontend/app/page.js`) -/

/-- The JSON body of a successful `/recommend` response:
`{verses, explanation}` with `verses` always an array. -/
structure NSResult where
  verses : List Verse
  explanation : String
deriving DecidableEq, Repr

/-- React state of the non-streaming page: its five `useState` hooks. -/
structure NSClientState where
  concern : String
  tradition : String
  loading : Bool
  result : Option NSResult
  error : Option String
deriving DecidableEq, Repr

/-- Outcome of the `fetch` to `/recommend`: connection-level failure or a
parsed JSON body. -/
inductive NSFetchOutcome where
  | connectFailure
  | ok (data : NSResult)
deriving DecidableEq, Repr

/-- Embedding of the non-streaming `handleSubmit`: validation guard, state
resets, one `fetch`, `setResult(data)` on success, `setError` in the
catch, `setLoading(false)` in the `finally`. -/
def nsHandleSubmit (s : NSClientState) (resp : NSFetchOutcome) : NSClientState :=
  if jsTrim s.concern = "" then
    { s with error := some "Please share what you\x27re going through" }
  else
    let s1 : NSClientState := { s with loading := true, error := none, result := none }
    match resp with
    | .connectFailure =>
        { s1 with error := some "Unable to connect. Please try again.", loading := false }
    | .ok data => { s1 with result := some data, loading := false }

/-- Final user-visible (verses, explanation) pair of the streaming page,
when a result is displayed. -/
def finalView (c : ClientState) : Option (Option (List Verse) × String) :=
  c.result.map (fun r => (r.verses, r.explanation))

/-- Final user-visible (verses, explanation) pair of the non-streaming
page, when a result is displayed; verses are always present there. -/
def nsFinalView (c : NSClientState) : Option (Option (List Verse) × String) :=
  c.result.map (fun r => (some r.verses, r.explanation))

/-! ## Backend pipeline, modelled from the design document

`backend/main.py` is not part of this tree (only its documentation is), so
the stages below are spec models. -/

/-- Modelled from the spec: the backend query validation error cases of
§4.1 — "empty input" when the trimmed length is 0, "too long" when the
length exceeds 500 characters; §7 classifies both as `invalid_input`. -/
inductive ValidationError where
  | emptyInput
  | tooLong
deriving DecidableEq, Repr

/-- The human-readable message of a validation error (§4.1). -/
def ValidationError.message : ValidationError → String
  | .emptyInput => "empty input"
  | .tooLong => "too long"

/-- The error-taxonomy class of a validation error (§7). -/
def ValidationError.errorClass : ValidationError → String
  | .emptyInput => "invalid_input"
  | .tooLong => "invalid_input"

/-- Modelled from the spec: the bound enforced by the Query Preprocessor
and mirrored by the frontend `MAX_CHARS = 500`. -/
def MAX_CHARS : Nat := 500

/-- Modelled from the spec: the Query Preprocessor (§4.1), absent from
this tree with the backend source.  Rejects empty/whitespace-only input,
rejects input longer than 500 characters, and otherwise yields the
normalized (trimmed) query. -/
def validateQuery (raw : String) : Except ValidationError String :=
  if (jsTrim raw).length = 0 then .error .emptyInput
  else if raw.length > MAX_CHARS then .error .tooLong
  else .ok (jsTrim raw)

/-- Boolean test that a character list starts with another. -/
def startsWithChars : List Char → List Char → Bool
  | [], _ => true
  | _ :: _, [] => false
  | a :: as, b :: bs => a == b && startsWithChars as bs

/-- Boolean substring test on character lists (`needle` inside `hay`). -/
def hasSubstrChars (needle : List Char) : List Char → Bool
  | [] => startsWithChars needle []
  | b :: bs => startsWithChars needle (b :: bs) || hasSubstrChars needle bs

/-- Modelled from the spec: the fixed crisis indicator keyword list of the
Crisis Gate (§4.2); the project documentation names "suicide",
"self-harm" and "want to die" as detected phrases. -/
def crisisKeywords : List String :=
  ["suicide", "suicidal", "self-harm", "kill myself", "want to die", "end my life"]

/-- Modelled from the spec: the fixed, tradition-independent templated
resource message the Crisis Gate returns on a match (§4.2). -/
def crisisMessage : String :=
  "I\x27m deeply concerned about what you\x27re going through. Please reach out for immediate support:\n\n" ++
  "National Suicide Prevention Lifeline: 988 (24/7)\n" ++
  "Crisis Text Line: Text HOME to 741741\n" ++
  "International Association for Suicide Prevention: https://www.iasp.info/resources/Crisis_Centres/\n\n" ++
  "Your life has immeasurable value."

/-- Modelled from the spec: the Crisis Gate match — case-insensitive
keyword/substring scan of the normalized query (§4.2). -/
def containsCrisis (q : String) : Bool :=
  crisisKeywords.any (fun k => hasSubstrChars k.toList (q.toList.map Char.toLower))

/-- A retrieval candidate: `{identifier, source_label, text, origin_tag,
raw_score}` (§3).  Scores are opaque beyond ordering, so their numeric
type is embedded as `Int`; candidate lists are assumed already ordered by
the owning stage. -/
structure Candidate where
  id : Nat
  sourceLabel : String
  text : String
  originTag : String
  score : Int
  url : Option String
deriving DecidableEq, Repr

/-- Modelled from the spec: the first, greedy pass of the Diversity
Selector (§4.5) — walk the score-ordered list, accept a candidate if its
source label has not been accepted yet, stop at `fuel` accepted — split
into the accepted list and the rejected remainder (in order). -/
def firstPassSplit : List Candidate → List String → Nat → List Candidate × List Candidate
  | [], _, _ => ([], [])
  | c :: rest, seen, fuel =>
      if fuel = 0 then ([], c :: rest)
      else if c.sourceLabel ∈ seen then
        let p := firstPassSplit rest seen fuel
        (p.1, c :: p.2)
      else
        let p := firstPassSplit rest (c.sourceLabel :: seen) (fuel - 1)
        (c :: p.1, p.2)

/-- Modelled from the spec: the Diversity Selector (§4.5) — greedy
one-per-source first pass in score order, then, if fewer than `n` were
accepted, a second pass over the same list allowing repeated source
labels, filling the remaining slots in score order. -/
def diversitySelect (n : Nat) (pool : List Candidate) : List Candidate :=
  let p := firstPassSplit pool [] n
  p.1 ++ p.2.take (n - p.1.length)

/-- The number of distinct source labels in a candidate pool. -/
def distinctSourceLabels (pool : List Candidate) : Nat :=
  (pool.map Candidate.sourceLabel).toFinset.card

/-- The final user-visible passage `{ref, text, translation, score, url}`
derived from a selected candidate (§3). -/
def toPassage (c : Candidate) : Verse :=
  { ref := c.sourceLabel, text := c.text, translation := c.originTag,
    score := c.score, url := c.url }

/-- One event of the backend's outbound stream (§6). -/
inductive PEvent where
  | crisis (content : String)
  | verses (vs : List Verse)
  | chunk (content : String)
  | done
  | error (msg : String)
deriving DecidableEq, Repr

/-- Modelled from the spec: a frozen collaborator state (§6) — the
semantic index / web search (`retrieve`, `none` on service failure), the
reranker (`rerank`, `none` on failure or quota exhaustion), and the
streaming completion service (`generate`, `none` on terminal failure,
otherwise the list of text deltas). -/
structure CollaboratorState where
  retrieve : String → String → Option (List Candidate)
  rerank : String → List Candidate → Option (List Candidate)
  generate : String → Option (List String)

/-- Modelled from the spec: the Prompt Composer (§4.6) — a pure function
of tradition, normalized query and final passages; only its purity
matters to the claims below, so it is embedded as a canonical
concatenation. -/
def composePrompt (tradition q : String) (passages : List Verse) : String :=
  tradition ++ "|" ++ q ++ "|" ++ String.join (passages.map (fun p => p.ref ++ ":" ++ p.text ++ ";"))

/-- Modelled from the spec: the full pipeline run (§2, §4) serialized by
the Response Encoder into the ordered event stream (§4.8): validation,
then the crisis short-circuit, then retrieval (terminal failure on
service error, distinct terminal failure on zero results), reranking with
fallback to retrieval order, diversity selection, prompt composition and
synthesis streaming (verses, chunks, done; terminal error after a
synthesis failure preserves the verses event). -/
def pipeline (issue tradition : String) (st : CollaboratorState) : List PEvent :=
  match validateQuery issue with
  | .error e => [.error e.message]
  | .ok q =>
      if containsCrisis q then [.crisis crisisMessage]
      else
        match st.retrieve q tradition with
        | none => [.error "Search service is temporarily unavailable. Please try again."]
        | some [] => [.error "No passages found. Try rephrasing your concern."]
        | some pool =>
            let ranked := (st.rerank q pool).getD pool
            let passages := (diversitySelect 3 ranked).map toPassage
            match st.generate (composePrompt tradition q passages) with
            | none => [.verses passages, .error "Unable to generate an explanation. Please try again."]
            | some chunks => [.verses passages] ++ chunks.map PEvent.chunk ++ [.done]

/-- Encoding of a pipeline event into the frame the streaming client
parses from the corresponding `data:` line (§6). -/
def encodeEvent : PEvent → Frame
  | .crisis content => .crisis content
  | .verses vs => .verses vs
  | .chunk content => .chunk content
  | .done => .done
  | .error msg => .errObj msg

/-- The verses payloads of an event stream, in order. -/
def versesOf (evts : List PEvent) : List (List Verse) :=
  evts.filterMap (fun e => match e with | .verses vs => some vs | _ => none)

/-- The user-visible projection of the streaming page state: the fields
the results section, the error box and the spinner read. -/
def displayed (c : ClientState) :
    Option StreamResult × Option String × String × Bool × Bool :=
  (c.result, c.error, c.streamingExplanation, c.isStreaming, c.loading)

/-- The number of source labels of a candidate list that are not in
`seen`, counted by the same left-to-right recursion as the greedy first
pass; the bridge to `distinctSourceLabels` is proved below. -/
def countNew : List Candidate → List String → Nat
  | [], _ => 0
  | c :: rest, seen =>
      if c.sourceLabel ∈ seen then countNew rest seen
      else 1 + countNew rest (c.sourceLabel :: seen)

/-- A 500-character query (the accepted boundary). -/
def q500 : String := String.mk (List.replicate 500 'a')

/-- A 501-character query (the rejected boundary). -/
def q501 : String := String.mk (List.replicate 501 'a')

/-- Test fixture: a candidate with a given identifier and source label. -/
def cand (i : Nat) (lab : String) : Candidate :=
  { id := i, sourceLabel := lab, text := "t", originTag := "WEB", score := 0, url := none }

/-- Test fixture: a verse. -/
def sampleVerse : Verse :=
  { ref := "Philippians 4:6-7", text := "Do not be anxious...", translation := "WEB",
    score := 89, url := none }

/-- Test fixture: a streaming-page state with a non-empty concern and no
prior run data. -/
def sampleState : ClientState :=
  { concern := "I feel lost", tradition := "christian", loading := false,
    result := none, error := none, streamingExplanation := "",
    isStreaming := false, copyFeedback := { shown := false, message := "" } }

/-- Test fixture: a streaming-page state with stale data from an earlier
run still present. -/
def staleState : ClientState :=
  { concern := "I feel lost", tradition := "christian", loading := true,
    result := some { verses := some [sampleVerse], explanation := "old" },
    error := some "old error", streamingExplanation := "old stream",
    isStreaming := true, copyFeedback := { shown := true, message := "copied" } }

/-- Test fixture: a streaming-page state whose concern is whitespace
only. -/
def wsState : ClientState :=
  { sampleState with concern := "   " }

/-- Test fixture: a non-streaming-page state with a non-empty concern. -/
def nsSampleState : NSClientState :=
  { concern := "I feel lost", tradition := "christian", loading := false,
    result := none, error := none }

/-- Test fixture: a frozen collaborator state whose index returns two
candidates from distinct sources and whose completion service streams two
text deltas. -/
def sampleCollab : CollaboratorState :=
  { retrieve := fun _ _ => some [cand 0 "Psalms", cand 1 "John"],
    rerank := fun _ l => some l,
    generate := fun _ => some ["Text. ", "More text."] }

/-! ## Lemmas about the Diversity Selector -/

lemma firstPassSplit_acc_length (l : List Candidate) :
    ∀ (seen : List String) (n : Nat),
      (firstPassSplit l seen n).1.length = min n (countNew l seen) := by
  induction l with
  | nil => intro seen n; simp [firstPassSplit, countNew]
  | cons c rest ih =>
      intro seen n
      by_cases hn : n = 0
      · simp [firstPassSplit, hn]
      · by_cases hm : c.sourceLabel ∈ seen
        · simp [firstPassSplit, countNew, hn, hm, ih]
        · simp only [firstPassSplit, countNew, hn, hm, if_false, if_neg, List.length_cons]
          rw [ih]
          omega

lemma firstPassSplit_length_sum (l : List Candidate) :
    ∀ (seen : List String) (n : Nat),
      (firstPassSplit l seen n).1.length + (firstPassSplit l seen n).2.length = l.length := by
  induction l with
  | nil => intro seen n; simp [firstPassSplit]
  | cons c rest ih =>
      intro seen n
      by_cases hn : n = 0
      · simp [firstPassSplit, hn]
      · by_cases hm : c.sourceLabel ∈ seen
        · simp only [firstPassSplit, hn, hm, if_true, if_false, if_neg, List.length_cons]
          have := ih seen n
          omega
        · simp only [firstPassSplit, hn, hm, if_false, if_neg, List.length_cons]
          have := ih (c.sourceLabel :: seen) (n - 1)
          omega

lemma firstPassSplit_labels_nodup (l : List Candidate) :
    ∀ (seen : List String) (n : Nat),
      ((firstPassSplit l seen n).1.map Candidate.sourceLabel).Nodup ∧
      ∀ x ∈ (firstPassSplit l seen n).1.map Candidate.sourceLabel, x ∉ seen := by
  induction l with
  | nil => intro seen n; simp [firstPassSplit]
  | cons c rest ih =>
      intro seen n
      by_cases hn : n = 0
      · simp [firstPassSplit, hn]
      · by_cases hm : c.sourceLabel ∈ seen
        · simpa [firstPassSplit, hn, hm] using ih seen n
        · have ihr := ih (c.sourceLabel :: seen) (n - 1)
          simp only [firstPassSplit, hn, hm, if_false, if_neg, List.map_cons, List.nodup_cons]
          refine ⟨⟨?_, ihr.1⟩, ?_⟩
          · intro hmem
            exact (ihr.2 _ hmem) (List.mem_cons_self _ _)
          · intro x hx
            rcases List.mem_cons.mp hx with hx | hx
            · exact hx ▸ hm
            · intro hxseen
              exact (ihr.2 _ hx) (List.mem_cons_of_mem _ hxseen)

lemma countNew_le_length (l : List Candidate) :
    ∀ (seen : List String), countNew l seen ≤ l.length := by
  induction l with
  | nil => intro seen; simp [countNew]
  | cons c rest ih =>
      intro seen
      by_cases hm : c.sourceLabel ∈ seen
      · simp only [countNew, hm, if_true, List.length_cons]
        have := ih seen
        omega
      · simp only [countNew, hm, if_false, if_neg, List.length_cons]
        have := ih (c.sourceLabel :: seen)
        omega

lemma countNew_eq_card_sdiff (l : List Candidate) :
    ∀ (seen : List String),
      countNew l seen =
        ((l.map Candidate.sourceLabel).toFinset \ seen.toFinset).card := by
  induction l with
  | nil => intro seen; simp [countNew]
  | cons c rest ih =>
      intro seen
      by_cases hm : c.sourceLabel ∈ seen
      · have hmf : c.sourceLabel ∈ seen.toFinset := List.mem_toFinset.mpr hm
        simp only [countNew, hm, if_true, List.map_cons, List.toFinset_cons]
        rw [Finset.insert_sdiff_of_mem _ hmf]
        exact ih seen
      · have hmf : c.sourceLabel ∉ seen.toFinset := fun h => hm (List.mem_toFinset.mp h)
        simp only [countNew, hm, if_false, if_neg, List.map_cons, List.toFinset_cons]
        rw [ih (c.sourceLabel :: seen)]
        rw [Finset.insert_sdiff_of_not_mem _ hmf]
        rw [List.toFinset_cons, Finset.sdiff_insert]
        set S := (rest.map Candidate.sourceLabel).toFinset \ seen.toFinset with hS
        by_cases hcS : c.sourceLabel ∈ S
        · rw [Finset.insert_eq_self.mpr hcS]
          rw [Finset.card_erase_of_mem hcS]
          have : 0 < S.card := Finset.card_pos.mpr ⟨_, hcS⟩
          omega
        · rw [Finset.card_insert_of_not_mem hcS]
          rw [Finset.erase_eq_of_not_mem hcS]
          omega

lemma countNew_nil_eq (pool : List Candidate) :
    countNew pool [] = distinctSourceLabels pool := by
  rw [countNew_eq_card_sdiff pool []]
  simp [distinctSourceLabels]

lemma diversitySelect_length (n : Nat) (pool : List Candidate) :
    (diversitySelect n pool).length = min n pool.length := by
  have h1 := firstPassSplit_acc_length pool [] n
  have h2 := firstPassSplit_length_sum pool [] n
  have h3 := countNew_le_length pool []
  simp only [diversitySelect, List.length_append, List.length_take]
  omega

/-! ## Lemmas about the streaming client's read loop -/

lemma chunks_fold (cs : List String) :
    ∀ (r : RunState),
      ((cs.map Frame.chunk).foldl processFrame r).tempVerses = r.tempVerses ∧
      ((cs.map Frame.chunk).foldl processFrame r).tempExplanation
        = cs.foldl (fun a b => a ++ b) r.tempExplanation ∧
      ((cs.map Frame.chunk).foldl processFrame r).client.result = r.client.result ∧
      ((cs.map Frame.chunk).foldl processFrame r).client.error = r.client.error ∧
      ((cs.map Frame.chunk).foldl processFrame r).client.loading = r.client.loading := by
  induction cs with
  | nil => intro r; simp
  | cons c cs ih =>
      intro r
      simpa [processFrame] using ih (processFrame r (.chunk c))

lemma string_foldl_append (cs : List String) :
    ∀ (a : String), cs.foldl (fun x y => x ++ y) a = a ++ String.join cs := by
  induction cs with
  | nil => intro a; simp [String.join]
  | cons c cs ih =>
      intro a
      have hjoin : String.join (c :: cs) = c ++ String.join cs := by
        show cs.foldl (fun x y => x ++ y) ("" ++ c) = c ++ String.join cs
        have hc : ("" : String) ++ c = c := by simp
        rw [hc, ih c]
      show cs.foldl (fun x y => x ++ y) (a ++ c) = a ++ String.join (c :: cs)
      rw [ih (a ++ c), hjoin, String.append_assoc]

lemma displayed_processFrame_congr (f : Frame) (r1 r2 : RunState)
    (hc : displayed r1.client = displayed r2.client)
    (hv : r1.tempVerses = r2.tempVerses)
    (he : r1.tempExplanation = r2.tempExplanation) :
    displayed (processFrame r1 f).client = displayed (processFrame r2 f).client ∧
    (processFrame r1 f).tempVerses = (processFrame r2 f).tempVerses ∧
    (processFrame r1 f).tempExplanation = (processFrame r2 f).tempExplanation := by
  simp only [displayed, Prod.mk.injEq] at hc
  obtain ⟨h1, h2, h3, h4, h5⟩ := hc
  cases f <;> simp_all [processFrame, displayed]

lemma displayed_fold_congr (frames : List Frame) :
    ∀ (r1 r2 : RunState),
      displayed r1.client = displayed r2.client →
      r1.tempVerses = r2.tempVerses →
      r1.tempExplanation = r2.tempExplanation →
      displayed (frames.foldl processFrame r1).client
        = displayed (frames.foldl processFrame r2).client := by
  induction frames with
  | nil => intro r1 r2 hc hv he; simpa using hc
  | cons f fs ih =>
      intro r1 r2 hc hv he
      obtain ⟨hc', hv', he'⟩ := displayed_processFrame_congr f r1 r2 hc hv he
      simpa using ih (processFrame r1 f) (processFrame r2 f) hc' hv' he'

lemma displayed_applyCatch_congr (c1 c2 : ClientState) (msg : String)
    (hc : displayed c1 = displayed c2) :
    displayed (applyCatch c1 msg) = displayed (applyCatch c2 msg) := by
  simp only [displayed, Prod.mk.injEq] at hc ⊢
  obtain ⟨h1, h2, h3, h4, h5⟩ := hc
  simp_all [applyCatch]

lemma processFrame_errObj (r : RunState) (m : String) :
    processFrame r (.errObj m) = r := rfl

lemma stream_fold_vcd (r : RunState) (V : List Verse) (cs : List String) :
    ((Frame.verses V :: (cs.map Frame.chunk ++ [Frame.done])).foldl processFrame r).client.result
      = some { verses := some V, explanation := r.tempExplanation ++ String.join cs } ∧
    ((Frame.verses V :: (cs.map Frame.chunk ++ [Frame.done])).foldl processFrame r).client.isStreaming = false ∧
    ((Frame.verses V :: (cs.map Frame.chunk ++ [Frame.done])).foldl processFrame r).client.streamingExplanation = "" ∧
    ((Frame.verses V :: (cs.map Frame.chunk ++ [Frame.done])).foldl processFrame r).client.error = r.client.error ∧
    ((Frame.verses V :: (cs.map Frame.chunk ++ [Frame.done])).foldl processFrame r).client.loading = false := by
  have hsplit :
      (Frame.verses V :: (cs.map Frame.chunk ++ [Frame.done])).foldl processFrame r
        = processFrame ((cs.map Frame.chunk).foldl processFrame (processFrame r (.verses V))) .done := by
    rw [List.foldl_cons, List.foldl_append, List.foldl_cons, List.foldl_nil]
  obtain ⟨hv, he, hres, herr, hload⟩ := chunks_fold cs (processFrame r (.verses V))
  rw [hsplit]
  simp only [processFrame] at hv he herr hload ⊢
  rw [hv, he, herr, hload, string_foldl_append]
  simp

lemma stream_fold_vc_frame (r : RunState) (V : List Verse) (cs : List String) :
    ((Frame.verses V :: cs.map Frame.chunk).foldl processFrame r).client.result
      = some { verses := some V, explanation := "" } ∧
    ((Frame.verses V :: cs.map Frame.chunk).foldl processFrame r).client.loading = false := by
  rw [List.foldl_cons]
  obtain ⟨hv, he, hres, herr, hload⟩ := chunks_fold cs (processFrame r (.verses V))
  rw [hres, hload]
  simp [processFrame]

/-! ## Claim theorems -/

/-- C1: a query that passes validation and matches a configured crisis
keyword yields an event stream that is exactly one crisis event — no
verses, explanation_chunk or done events — and the client, processing
that stream, displays the crisis message with an empty passage list and
does not render passages. -/
theorem crisis_stream_short_circuit (issue trad q : String) (st : CollaboratorState)
    (s : ClientState)
    (hv : validateQuery issue = .ok q) (hc : containsCrisis q = true)
    (hs : jsTrim s.concern ≠ "") :
    pipeline issue trad st = [PEvent.crisis crisisMessage] ∧
    (handleSubmit s (.stream ([PEvent.crisis crisisMessage].map encodeEvent))).result
      = some { verses := some [], explanation := crisisMessage } ∧
    rendersPassages (handleSubmit s (.stream ([PEvent.crisis crisisMessage].map encodeEvent)))
      = false := by
  refine ⟨?_, ?_, ?_⟩
  · simp [pipeline, hv, hc]
  · simp [handleSubmit, if_neg hs, encodeEvent, processFrame]
  · simp [handleSubmit, if_neg hs, encodeEvent, processFrame, rendersPassages]

/-- C1 witness: the crisis query "I want to die" on the fixture
collaborator and client states. -/
theorem crisis_stream_short_circuit_witness :
    validateQuery "I want to die" = .ok "I want to die" ∧
    containsCrisis "I want to die" = true ∧
    jsTrim sampleState.concern ≠ "" ∧
    pipeline "I want to die" "jewish" sampleCollab = [PEvent.crisis crisisMessage] :=
  ⟨by rfl, by decide, by decide,
    (crisis_stream_short_circuit "I want to die" "jewish" "I want to die" sampleCollab
      sampleState (by rfl) (by decide) (by decide)).1⟩

/-- C2: a terminal `{"error": msg}` frame is NOT surfaced by the streaming
client — the `throw` in the `data.error` branch is swallowed by the inner
`catch (parseError)`, so the error state stays `null` and the spinner
keeps running. -/
theorem error_frame_silently_dropped :
    (handleSubmit sampleState (.stream [Frame.errObj "The search service failed"])).error = none ∧
    (handleSubmit sampleState (.stream [Frame.errObj "The search service failed"])).loading = true := by
  decide

/-- C3: a stream of one verses event, explanation chunks, then done leaves
the client displaying exactly the verses list and the in-order
concatenation of the chunks. -/
theorem stream_result_concatenation (s : ClientState) (V : List Verse) (cs : List String)
    (h : jsTrim s.concern ≠ "") :
    (handleSubmit s (.stream (Frame.verses V :: (cs.map Frame.chunk ++ [Frame.done])))).result
      = some { verses := some V, explanation := String.join cs } ∧
    (handleSubmit s (.stream (Frame.verses V :: (cs.map Frame.chunk ++ [Frame.done])))).isStreaming
      = false ∧
    (handleSubmit s (.stream (Frame.verses V :: (cs.map Frame.chunk ++ [Frame.done])))).streamingExplanation
      = "" := by
  simp only [handleSubmit, if_neg h]
  refine ⟨(stream_fold_vcd _ V cs).1.trans ?_, (stream_fold_vcd _ V cs).2.1,
    (stream_fold_vcd _ V cs).2.2.1⟩
  simp [initRun]

/-- C3 witness: the end-to-end example stream. -/
theorem stream_result_concatenation_witness :
    jsTrim sampleState.concern ≠ "" ∧
    (handleSubmit sampleState
        (.stream (Frame.verses [sampleVerse]
          :: (["Text. ", "More text."].map Frame.chunk ++ [Frame.done])))).result
      = some { verses := some [sampleVerse], explanation := "Text. More text." } := by
  refine ⟨by decide, ?_⟩
  rw [(stream_result_concatenation sampleState [sampleVerse] ["Text. ", "More text."] (by decide)).1]
  decide

/-- C4: a whitespace-only (or empty) concern is rejected: the only state
change is the validation error message, and the outcome is independent of
the backend response — no request is consumed, no run starts. -/
theorem empty_input_rejected (s : ClientState) (resp resp2 : FetchOutcome)
    (h : jsTrim s.concern = "") :
    handleSubmit s resp = { s with error := some "Please share what you\x27re going through" } ∧
    handleSubmit s resp = handleSubmit s resp2 := by
  constructor <;> simp [handleSubmit, h]

/-- C4 witness: the whitespace-only fixture state. -/
theorem empty_input_rejected_witness :
    jsTrim wsState.concern = "" ∧
    handleSubmit wsState (.stream [Frame.done])
      = { wsState with error := some "Please share what you\x27re going through" } ∧
    handleSubmit wsState (.stream [Frame.done]) = handleSubmit wsState .connectFailure := by
  refine ⟨by decide, ?_, ?_⟩
  · exact (empty_input_rejected wsState (.stream [Frame.done]) .connectFailure (by decide)).1
  · exact (empty_input_rejected wsState (.stream [Frame.done]) .connectFailure (by decide)).2

/-- C5: a 500-character query passes validation (and, on the fixture
collaborator, the run is submitted and reaches the verses event), while a
501-character query is rejected as `invalid_input` before any
collaborator is consulted: the pipeline outcome on it is the same for
every collaborator state. -/
theorem query_length_boundary :
    validateQuery q500 = .ok q500 ∧
    validateQuery q501 = .error .tooLong ∧
    ValidationError.tooLong.errorClass = "invalid_input" ∧
    ValidationError.emptyInput.errorClass = "invalid_input" ∧
    pipeline q500 "christian" sampleCollab
      = [.verses [toPassage (cand 0 "Psalms"), toPassage (cand 1 "John")],
         .chunk "Text. ", .chunk "More text.", .done] ∧
    (∀ trad : String, ∀ st st2 : CollaboratorState,
      pipeline q501 trad st = pipeline q501 trad st2) ∧
    (∀ trad : String, ∀ st : CollaboratorState,
      pipeline q501 trad st = [PEvent.error "too long"]) := by
  have h501 : validateQuery q501 = .error .tooLong := by rfl
  refine ⟨by rfl, h501, by rfl, by rfl, by decide, ?_, ?_⟩
  · intro trad st st2
    simp [pipeline, h501]
  · intro trad st
    simp [pipeline, h501, ValidationError.message]

/-- C6: once a verses event has been processed, a later error — whether an
error frame in the stream or a read failure surfaced through the catch
block — does not discard the passages: the displayed result still holds
them. -/
theorem verses_preserved_on_error (s : ClientState) (V : List Verse) (cs : List String)
    (msg : String) (h : jsTrim s.concern ≠ "") :
    ((handleSubmit s (.stream (Frame.verses V :: (cs.map Frame.chunk ++ [Frame.errObj msg])))).result).map
        StreamResult.verses = some (some V) ∧
    ((handleSubmit s (.streamFail (Frame.verses V :: cs.map Frame.chunk) msg)).result).map
        StreamResult.verses = some (some V) ∧
    (handleSubmit s (.streamFail (Frame.verses V :: cs.map Frame.chunk) msg)).error.isSome
      = true := by
  simp only [handleSubmit, if_neg h]
  obtain ⟨hv, he, hres, herr, hload⟩ :=
    chunks_fold cs (processFrame (initRun s) (.verses V))
  refine ⟨?_, ?_, ?_⟩
  · rw [List.foldl_cons, List.foldl_append, List.foldl_cons, List.foldl_nil,
      processFrame_errObj, hres]
    simp [processFrame]
  · rw [List.foldl_cons]
    simp only [applyCatch, hres]
    simp [processFrame]
  · simp [applyCatch]

/-- C6 witness: verses, one chunk, then a terminal error. -/
theorem verses_preserved_on_error_witness :
    jsTrim sampleState.concern ≠ "" ∧
    ((handleSubmit sampleState
        (.stream (Frame.verses [sampleVerse] :: (["One "].map Frame.chunk
          ++ [Frame.errObj "The model failed"])))).result).map StreamResult.verses
      = some (some [sampleVerse]) ∧
    ((handleSubmit sampleState
        (.streamFail (Frame.verses [sampleVerse] :: ["One "].map Frame.chunk)
          "The model failed")).result).map StreamResult.verses
      = some (some [sampleVerse]) :=
  ⟨by decide,
    (verses_preserved_on_error sampleState [sampleVerse] ["One "] "The model failed" (by decide)).1,
    (verses_preserved_on_error sampleState [sampleVerse] ["One "] "The model failed" (by decide)).2.1⟩

/-- C7: with N=3, a pool with at least 3 distinct source labels yields
three passages with pairwise-distinct source labels; a pool with a single
distinct source label but at least 3 candidates still yields exactly 3
passages. -/
theorem diversity_selector_spec (pool1 pool2 : List Candidate)
    (h1 : 3 ≤ distinctSourceLabels pool1)
    (h2 : distinctSourceLabels pool2 = 1)
    (h3 : 3 ≤ pool2.length) :
    (diversitySelect 3 pool1).length = 3 ∧
    ((diversitySelect 3 pool1).map Candidate.sourceLabel).Nodup ∧
    (diversitySelect 3 pool2).length = 3 := by
  have hc1 : countNew pool1 [] = distinctSourceLabels pool1 := countNew_nil_eq pool1
  have hlen1 : countNew pool1 [] ≤ pool1.length := countNew_le_length pool1 []
  have hacc1 := firstPassSplit_acc_length pool1 [] 3
  refine ⟨?_, ?_, ?_⟩
  · rw [diversitySelect_length]
    omega
  · have hnodup := (firstPassSplit_labels_nodup pool1 [] 3).1
    have htake : 3 - (firstPassSplit pool1 [] 3).1.length = 0 := by omega
    simp only [diversitySelect, htake, List.take_zero, List.append_nil]
    exact hnodup
  · have hc2 : countNew pool2 [] = distinctSourceLabels pool2 := countNew_nil_eq pool2
    rw [diversitySelect_length]
    omega

/-- C7 witness: a three-source pool and a single-source pool. -/
theorem diversity_selector_spec_witness :
    3 ≤ distinctSourceLabels [cand 0 "Psalms", cand 1 "Isaiah", cand 2 "John"] ∧
    distinctSourceLabels [cand 0 "Psalms", cand 1 "Psalms", cand 2 "Psalms"] = 1 ∧
    (diversitySelect 3 [cand 0 "Psalms", cand 1 "Isaiah", cand 2 "John"]).length = 3 ∧
    (diversitySelect 3 [cand 0 "Psalms", cand 1 "Psalms", cand 2 "Psalms"]).length = 3 := by
  refine ⟨by decide, by decide, ?_, ?_⟩
  · exact (diversity_selector_spec
      [cand 0 "Psalms", cand 1 "Isaiah", cand 2 "John"]
      [cand 0 "Psalms", cand 1 "Psalms", cand 2 "Psalms"]
      (by decide) (by decide) (by decide)).1
  · exact (diversity_selector_spec
      [cand 0 "Psalms", cand 1 "Isaiah", cand 2 "John"]
      [cand 0 "Psalms", cand 1 "Psalms", cand 2 "Psalms"]
      (by decide) (by decide) (by decide)).2.2

/-- C8: the run is deterministic and depends only on the query and the
response frames — two submissions with the same concern and tradition and
the same frames produce the same displayed state regardless of any stale
per-run state, and a pipeline run against a frozen collaborator state
emits one fixed verses payload sequence. -/
theorem run_idempotence (s1 s2 : ClientState) (resp : FetchOutcome)
    (q trad : String) (st : CollaboratorState)
    (hconc : s1.concern = s2.concern) (htrad : s1.tradition = s2.tradition)
    (hne : jsTrim s1.concern ≠ "") :
    displayed (handleSubmit s1 resp) = displayed (handleSubmit s2 resp) ∧
    versesOf (pipeline q trad st) = versesOf (pipeline q trad st) := by
  refine ⟨?_, rfl⟩
  have hne2 : jsTrim s2.concern ≠ "" := by rw [← hconc]; exact hne
  simp only [handleSubmit, if_neg hne, if_neg hne2]
  cases resp with
  | connectFailure => simp [displayed, applyCatch, resetForRun]
  | stream frames =>
      apply displayed_fold_congr <;> simp [displayed, initRun, resetForRun]
  | streamFail frames msg =>
      apply displayed_applyCatch_congr
      apply displayed_fold_congr <;> simp [displayed, initRun, resetForRun]

/-- C8 witness: a fresh state and a state full of stale run data, same
concern and tradition, same frames. -/
theorem run_idempotence_witness :
    sampleState.concern = staleState.concern ∧
    sampleState.tradition = staleState.tradition ∧
    jsTrim sampleState.concern ≠ "" ∧
    displayed (handleSubmit sampleState (.stream [Frame.verses [sampleVerse], Frame.done]))
      = displayed (handleSubmit staleState (.stream [Frame.verses [sampleVerse], Frame.done])) :=
  ⟨by decide, by decide, by decide,
    (run_idempotence sampleState staleState (.stream [Frame.verses [sampleVerse], Frame.done])
      "q" "christian" sampleCollab (by decide) (by decide) (by decide)).1⟩

/-- C9: the streaming client on a verses/chunks/done stream and the
non-streaming client on the equivalent JSON body end in the same final
(verses, explanation) view. -/
theorem stream_nonstream_equiv (s : ClientState) (t : NSClientState)
    (V : List Verse) (cs : List String) (E : String)
    (hs : jsTrim s.concern ≠ "") (ht : jsTrim t.concern ≠ "")
    (hE : String.join cs = E) :
    finalView (handleSubmit s (.stream (Frame.verses V :: (cs.map Frame.chunk ++ [Frame.done]))))
      = some (some V, E) ∧
    nsFinalView (nsHandleSubmit t (.ok { verses := V, explanation := E }))
      = some (some V, E) := by
  constructor
  · simp only [handleSubmit, if_neg hs]
    rw [finalView]
    rw [(stream_fold_vcd (initRun s) V cs).1]
    simp [initRun, hE]
  · simp [nsHandleSubmit, if_neg ht, nsFinalView]

/-- C9 witness: the end-to-end example on both clients. -/
theorem stream_nonstream_equiv_witness :
    jsTrim sampleState.concern ≠ "" ∧
    jsTrim nsSampleState.concern ≠ "" ∧
    String.join ["Text. ", "More text."] = "Text. More text." ∧
    finalView (handleSubmit sampleState
        (.stream (Frame.verses [sampleVerse]
          :: (["Text. ", "More text."].map Frame.chunk ++ [Frame.done]))))
      = some (some [sampleVerse], "Text. More text.") ∧
    nsFinalView (nsHandleSubmit nsSampleState
        (.ok { verses := [sampleVerse], explanation := "Text. More text." }))
      = some (some [sampleVerse], "Text. More text.") :=
  ⟨by decide, by decide, by decide,
    (stream_nonstream_equiv sampleState nsSampleState [sampleVerse]
      ["Text. ", "More text."] "Text. More text." (by decide) (by decide) (by decide)).1,
    (stream_nonstream_equiv sampleState nsSampleState [sampleVerse]
      ["Text. ", "More text."] "Text. More text." (by decide) (by decide) (by decide)).2⟩

/-- C10: handleReset clears exactly the per-run fields — concern, result,
error, streamingExplanation, isStreaming — and leaves tradition, the
copy-feedback toast and the loading flag unchanged. -/
theorem reset_frame_condition (s : ClientState) :
    (handleReset s).concern = "" ∧
    (handleReset s).result = none ∧
    (handleReset s).error = none ∧
    (handleReset s).streamingExplanation = "" ∧
    (handleReset s).isStreaming = false ∧
    (handleReset s).tradition = s.tradition ∧
    (handleReset s).copyFeedback = s.copyFeedback ∧
    (handleReset s).loading = s.loading := by
  simp [handleReset]
